import Mathlib

/-!
Shallow embedding of `pkg/internal/cluster/create/create.go` from the kind
repository: the cluster-creation orchestrator `create.Cluster`, its options
normalisation `fixupOptions`, the name validation regexp `validNameRE`, and
the flag-conditioned assembly of the bootstrap action pipeline.

External collaborators (config loading, config validation, the provisioner,
each bootstrap action's `Execute`, cluster deletion, kubeconfig export) are
modelled by an environment `Env` that fixes each collaborator's outcome.
The orchestrator is embedded as a pure function from the environment, the
cluster context and the options to the returned error (`Option String`,
`none` = success) together with a trace of the observable effects, in
execution order.
-/

namespace Kind

/-- A node entry of the cluster specification (`config.Node`); only the
`Image` field is relevant to the claims. -/
structure Node where
  image : String
deriving Repr, DecidableEq

/-- The networking section of the cluster specification
(`config.Networking`); only `DisableDefaultCNI` is relevant. -/
structure Networking where
  disableDefaultCNI : Bool
deriving Repr, DecidableEq

namespace config

/-- The cluster specification (`config.Cluster`). -/
structure Cluster where
  nodes : List Node
  networking : Networking
deriving Repr, DecidableEq

end config

/-- `create.ClusterOptions` (create.go lines 59-71). -/
structure ClusterOptions where
  config : Option config.Cluster
  nodeImage : String
  retain : Bool
  waitForReady : Nat
  kubeconfigPath : String
  stopBeforeSettingUpKubernetes : Bool
  displayUsage : Bool
  displaySalutation : Bool
deriving Repr, DecidableEq

/-- The cluster context; only `Name()` is read by `create.Cluster`. -/
structure Ctx where
  name : String
deriving Repr

/-- Outcomes of the external collaborators consumed by `create.Cluster`:
`encoding.Load ""`, `config.SetDefaultsCluster`'s default image,
`opts.Config.Validate()`, `ctx.Provider().Provision`, each pipeline
action's `Execute` (by position in the assembled sequence),
`delete.Cluster` (its error is discarded by the source) and
`kubeconfig.Export`. -/
structure Env where
  loadResult : Except String config.Cluster
  defaultNodeImage : String
  validateResult : Option String
  provisionResult : Option String
  stepResults : Nat → Option String
  deleteResult : Option String
  exportResult : Option String

/-- The fixed catalog of bootstrap actions (create.go lines 111-131):
load balancer, kubeadm config, kubeadm init, CNI install, storage install,
kubeadm join, wait-for-ready (carrying the wait duration). -/
inductive StepKind where
  | loadbalancer
  | configAction
  | kubeadminit
  | installcni
  | installstorage
  | kubeadmjoin
  | waitforready (wait : Nat)
deriving Repr, DecidableEq

/-- Observable effects of one `create.Cluster` call, in execution order. -/
inductive Event where
  | loadConfig
  | overrideImages
  | setDefaults
  | checkName
  | warnLongName
  | validateConfig
  | provision
  | compensate
  | runStep (k : StepKind)
  | exportKubeconfig
  | displayUsage
  | displaySalutation
deriving Repr, DecidableEq

/-- `clusterNameMax` (create.go line 49). -/
def clusterNameMax : Nat := 50

/-- Character class of `validNameRE`: `[a-zA-Z0-9_.-]`. -/
def isValidNameChar (c : Char) : Bool :=
  ('a' ≤ c && c ≤ 'z') || ('A' ≤ c && c ≤ 'Z') || ('0' ≤ c && c ≤ '9')
    || c == '_' || c == '.' || c == '-'

/-- `validNameRE.MatchString` for `^[a-zA-Z0-9_.-]+$` (create.go line 56):
the whole string is a non-empty run of characters from the class. -/
def validNameMatch (s : String) : Bool :=
  !s.isEmpty && s.toList.all isValidNameChar

/-- The error message built at create.go lines 82-85 for an invalid name. -/
def invalidNameError (name : String) : String :=
  "'" ++ name ++ "' is not a valid cluster name, cluster names must match `^[a-zA-Z0-9_.-]+$`"

/-- Modelled from the spec: the source of `config.SetDefaultsCluster` is not
under src/ (create.go line 212 only calls it). Spec section 4.2 step 3:
"Apply default-value computation to the specification (fills unset fields;
safe to call even on a fully-specified input)". We model it as filling each
node's unset (empty) image field with the collaborator's default image,
leaving every set field unchanged. -/
def SetDefaultsCluster (defaultImage : String) (c : config.Cluster) : config.Cluster :=
  { c with nodes := c.nodes.map (fun n => if n.image = "" then { n with image := defaultImage } else n) }

/-- The image-override loop of `fixupOptions` (create.go lines 205-207):
overwrite the image field of every node entry. -/
def applyNodeImageOverride (nodeImage : String) (c : config.Cluster) : config.Cluster :=
  { c with nodes := c.nodes.map (fun n => { n with image := nodeImage }) }

/-- Tail of `fixupOptions` after the config is ensured present (create.go
lines 200-214): apply the image override when `NodeImage` is non-empty,
then apply `config.SetDefaultsCluster`. Returns the updated options
together with the updated specification and the accumulated trace. -/
def fixupOptionsPost (env : Env) (opts : ClusterOptions) (cfg0 : config.Cluster)
    (evs : List Event) :
    Except String (ClusterOptions × config.Cluster) × List Event :=
  let cfg1 := if opts.nodeImage ≠ "" then applyNodeImageOverride opts.nodeImage cfg0 else cfg0
  let cfg2 := SetDefaultsCluster env.defaultNodeImage cfg1
  (Except.ok ({ opts with config := some cfg2 }, cfg2),
   evs ++ (if opts.nodeImage ≠ "" then [Event.overrideImages] else []) ++ [Event.setDefaults])

/-- `fixupOptions` (create.go lines 189-215): load a default config via
`encoding.Load ""` when none is present (a load failure is returned as is),
then override node images and apply defaults. -/
def fixupOptions (env : Env) (opts : ClusterOptions) :
    Except String (ClusterOptions × config.Cluster) × List Event :=
  match opts.config with
  | none =>
    match env.loadResult with
    | Except.error e => (Except.error e, [Event.loadConfig])
    | Except.ok cfg0 =>
      fixupOptionsPost env { opts with config := some cfg0 } cfg0 [Event.loadConfig]
  | some cfg0 => fixupOptionsPost env opts cfg0 []

/-- Assembly of `actionsToRun` (create.go lines 111-131): a fixed two-action
prefix, then, unless `StopBeforeSettingUpKubernetes`, kubeadm init, the CNI
install unless `DisableDefaultCNI`, and the three remaining actions. -/
def assembleActions (opts : ClusterOptions) (cfg : config.Cluster) : List StepKind :=
  let base := [StepKind.loadbalancer, StepKind.configAction]
  if !opts.stopBeforeSettingUpKubernetes then
    base ++ [StepKind.kubeadminit]
      ++ (if !cfg.networking.disableDefaultCNI then [StepKind.installcni] else [])
      ++ [StepKind.installstorage, StepKind.kubeadmjoin,
          StepKind.waitforready opts.waitForReady]
  else
    base

/-- The action loop of `create.Cluster` (create.go lines 135-142) without
the compensation wiring: execute the actions strictly in order against the
shared context, stopping at the first failure; `i` is the position of the
head action in the assembled sequence. Returns the first error (if any)
and the trace of executed actions. -/
def runActionsFrom (env : Env) (i : Nat) (steps : List StepKind) :
    Option String × List Event :=
  match steps with
  | [] => (none, [])
  | s :: rest =>
    match env.stepResults i with
    | some e => (some e, [Event.runStep s])
    | none =>
      let r := runActionsFrom env (i + 1) rest
      (r.1, Event.runStep s :: r.2)

namespace create

/-- Tail of `create.Cluster` after a fully successful action pipeline
(create.go lines 144-162): stop before setting up kubernetes, or export the
kubeconfig (`kubeconfig.Export`, create.go line 149; its failure returns the
export error with no compensation) and then optionally display usage and a
salutation. The trace starts after the last action event. -/
def clusterAfterPipeline (env : Env) (opts : ClusterOptions) :
    Option String × List Event :=
  if opts.stopBeforeSettingUpKubernetes then
    (none, [])
  else
    match env.exportResult with
    | some e => (some e, [Event.exportKubeconfig])
    | none =>
      let evs4 := [Event.exportKubeconfig]
      let evs5 := if opts.displayUsage then evs4 ++ [Event.displayUsage] else evs4
      let evs6 := if opts.displaySalutation then evs5 ++ [Event.displaySalutation] else evs5
      (none, evs6)

/-- Middle of `create.Cluster` after the name check (create.go lines 88-162):
the long-name warning, `opts.Config.Validate()`, provisioning with its
compensation wiring (create.go lines 101-108), the assembled action loop
with its compensation wiring (create.go lines 133-142), and the completion
handling. The trace starts at the warning event. -/
def clusterAfterName (env : Env) (ctx : Ctx) (opts : ClusterOptions)
    (cfg : config.Cluster) : Option String × List Event :=
  let warn := if ctx.name.length > clusterNameMax then [Event.warnLongName] else []
  match env.validateResult with
  | some e => (some e, warn ++ [Event.validateConfig])
  | none =>
    let evs2 := warn ++ [Event.validateConfig]
    match env.provisionResult with
    | some e =>
      if !opts.retain then
        (some e, evs2 ++ [Event.provision, Event.compensate])
      else
        (some e, evs2 ++ [Event.provision])
    | none =>
      let actionsToRun := assembleActions opts cfg
      let res := runActionsFrom env 0 actionsToRun
      let evs3 := evs2 ++ [Event.provision] ++ res.2
      match res.1 with
      | some e =>
        if !opts.retain then
          (some e, evs3 ++ [Event.compensate])
        else
          (some e, evs3)
      | none =>
        let post := clusterAfterPipeline env opts
        (post.1, evs3 ++ post.2)

/-- `create.Cluster` (create.go lines 74-163): normalize options via
`fixupOptions`, check the cluster name against `validNameRE` (create.go
lines 81-86), then continue with `clusterAfterName`. -/
def Cluster (env : Env) (ctx : Ctx) (opts0 : ClusterOptions) :
    Option String × List Event :=
  match fixupOptions env opts0 with
  | (Except.error e, evs) => (some e, evs)
  | (Except.ok (opts, cfg), evs0) =>
    if !validNameMatch ctx.name then
      (some (invalidNameError ctx.name), evs0 ++ [Event.checkName])
    else
      let r := clusterAfterName env ctx opts cfg
      (r.1, evs0 ++ Event.checkName :: r.2)

end create

/-- Recognizer for action-execution events. -/
def isRunStep : Event → Bool
  | Event.runStep _ => true
  | _ => false

/-! ### Helper lemmas about the traces of the embedded functions -/

theorem fixupOptions_events (env : Env) (opts : ClusterOptions) :
    (fixupOptions env opts).2 = [Event.loadConfig]
      ∨ (fixupOptions env opts).2 =
        (if opts.config = none then [Event.loadConfig] else [])
          ++ (if opts.nodeImage ≠ "" then [Event.overrideImages] else [])
          ++ [Event.setDefaults] := by
  unfold fixupOptions fixupOptionsPost
  cases hc : opts.config with
  | none =>
    cases hl : env.loadResult with
    | error e => simp
    | ok cfg0 => simp
  | some cfg0 => simp

theorem fixup_event_cases (env : Env) (opts : ClusterOptions) :
    ∀ e ∈ (fixupOptions env opts).2,
      e = Event.loadConfig ∨ e = Event.overrideImages ∨ e = Event.setDefaults := by
  intro e he
  rcases fixupOptions_events env opts with h | h <;> rw [h] at he
  · simp at he
    exact Or.inl he
  · simp only [List.mem_append] at he
    rcases he with (he | he) | he
    · split at he <;> simp at he
      exact Or.inl he
    · split at he <;> simp at he
      exact Or.inr (Or.inl he)
    · simp at he
      exact Or.inr (Or.inr he)

theorem fixup_count_zero (env : Env) (opts : ClusterOptions) (e : Event)
    (h1 : e ≠ Event.loadConfig) (h2 : e ≠ Event.overrideImages)
    (h3 : e ≠ Event.setDefaults) :
    (fixupOptions env opts).2.count e = 0 := by
  rw [List.count_eq_zero]
  intro hmem
  rcases fixup_event_cases env opts e hmem with h | h | h
  · exact h1 h
  · exact h2 h
  · exact h3 h

theorem count_opt_single {α : Type} [DecidableEq α] (c : Prop) [inst : Decidable c]
    (a e : α) (h : e ≠ a) :
    List.count e (if c then [a] else []) = 0 := by
  split <;> simp [List.count_cons, h]

theorem runActionsFrom_success (env : Env) :
    ∀ (steps : List StepKind) (i : Nat),
      (∀ j, j < steps.length → env.stepResults (i + j) = none) →
      runActionsFrom env i steps = (none, steps.map Event.runStep) := by
  intro steps
  induction steps with
  | nil => intro i _; rfl
  | cons s rest ih =>
    intro i h
    have h0 : env.stepResults i = none := by
      have := h 0 (by simp)
      simpa using this
    have hrest : ∀ j, j < rest.length → env.stepResults (i + 1 + j) = none := by
      intro j hj
      have := h (j + 1) (by simpa using Nat.succ_lt_succ hj)
      rw [Nat.add_assoc, Nat.add_comm 1 j]
      exact this
    unfold runActionsFrom
    rw [h0, ih (i + 1) hrest]
    simp

theorem runActionsFrom_fail (env : Env) :
    ∀ (steps : List StepKind) (i k : Nat) (e : String),
      k < steps.length →
      (∀ j, j < k → env.stepResults (i + j) = none) →
      env.stepResults (i + k) = some e →
      runActionsFrom env i steps = (some e, (steps.take (k + 1)).map Event.runStep) := by
  intro steps
  induction steps with
  | nil => intro i k e hk _ _; simp at hk
  | cons s rest ih =>
    intro i k e hk hpre hfail
    cases k with
    | zero =>
      have h0 : env.stepResults i = some e := by simpa using hfail
      unfold runActionsFrom
      rw [h0]
      simp
    | succ k =>
      have h0 : env.stepResults i = none := by simpa using hpre 0 (Nat.succ_pos k)
      have hpre' : ∀ j, j < k → env.stepResults (i + 1 + j) = none := by
        intro j hj
        have := hpre (j + 1) (Nat.succ_lt_succ hj)
        rw [Nat.add_assoc, Nat.add_comm 1 j]
        exact this
      have hfail' : env.stepResults (i + 1 + k) = some e := by
        rw [Nat.add_assoc, Nat.add_comm 1 k]
        exact hfail
      unfold runActionsFrom
      rw [h0, ih (i + 1) k e (by simpa using Nat.lt_of_succ_lt_succ hk) hpre' hfail']
      simp

/-! ### C2: pipeline length -/

/-- A ClusterOptions value with both flags false (no stop before setting up
kubernetes), used as a concrete input. -/
def optsBothFlagsFalse : ClusterOptions :=
  { config := none, nodeImage := "", retain := false, waitForReady := 0,
    kubeconfigPath := "", stopBeforeSettingUpKubernetes := false,
    displayUsage := false, displaySalutation := false }

/-- A specification with the default CNI enabled (disableDefaultCNI = false)
and no nodes, used as a concrete input. -/
def cfgCNIEnabled : config.Cluster :=
  { nodes := [], networking := { disableDefaultCNI := false } }

/-- C2 fails on the code: with stopBeforeBootstrap = false and
disableDefaultCNI = false the assembled pipeline has 7 steps (load
balancer, config, kubeadm init, CNI, storage, join, wait-for-ready), not
the 6 the claim states. -/
theorem c2_counterexample :
    optsBothFlagsFalse.stopBeforeSettingUpKubernetes = false ∧
    cfgCNIEnabled.networking.disableDefaultCNI = false ∧
    (assembleActions optsBothFlagsFalse cfgCNIEnabled).length = 7 ∧
    (assembleActions optsBothFlagsFalse cfgCNIEnabled).length ≠ 6 := by
  refine ⟨rfl, rfl, rfl, ?_⟩
  decide

/-- C2 (amended): the assembled pipeline has exactly 2 steps when
stopBeforeBootstrap is true, exactly 6 steps when stopBeforeBootstrap is
false and disableDefaultCNI is true, and exactly 7 steps when both flags
are false. -/
theorem c2_pipeline_length (opts : ClusterOptions) (cfg : config.Cluster) :
    (assembleActions opts cfg).length =
      if opts.stopBeforeSettingUpKubernetes then 2
      else if cfg.networking.disableDefaultCNI then 6 else 7 := by
  cases hs : opts.stopBeforeSettingUpKubernetes <;>
    cases h : cfg.networking.disableDefaultCNI <;>
      simp [assembleActions, hs, h]

theorem fixupOptions_ok_events (env : Env) (opts : ClusterOptions)
    (r : ClusterOptions × config.Cluster) (evs : List Event)
    (h : fixupOptions env opts = (Except.ok r, evs)) :
    evs = (if opts.config = none then [Event.loadConfig] else [])
      ++ (if opts.nodeImage ≠ "" then [Event.overrideImages] else [])
      ++ [Event.setDefaults] := by
  unfold fixupOptions fixupOptionsPost at h
  cases hc : opts.config with
  | none =>
    rw [hc] at h
    cases hl : env.loadResult with
    | error e => rw [hl] at h; simp at h
    | ok cfg0 =>
      rw [hl] at h
      simp only [Prod.mk.injEq] at h
      simp [← h.2]
  | some cfg0 =>
    rw [hc] at h
    simp only [Prod.mk.injEq] at h
    simp [← h.2]

/-! ### C1: ordering of validation and normalization -/

/-- An environment in which every external collaborator succeeds: the
default config load yields `cfgCNIEnabled`, config validation, provisioning,
every action and the kubeconfig export succeed. -/
def envSuccess : Env :=
  { loadResult := Except.ok cfgCNIEnabled, defaultNodeImage := "kindest/node:latest",
    validateResult := none, provisionResult := none,
    stepResults := fun _ => none, deleteResult := none, exportResult := none }

/-- A context whose cluster name contains a space, so `validNameRE` rejects it. -/
def ctxBadName : Ctx := { name := "bad name" }

/-- C1 fails on the code: on a call with no config and an invalid name, the
trace is load-config, set-defaults, then the name check — the normalization
side effects (default-config load, default-value computation) happen
before the name has been checked, so validation does not run before
normalization. -/
theorem c1_counterexample :
    (create.Cluster envSuccess ctxBadName optsBothFlagsFalse).2
        = [Event.loadConfig, Event.setDefaults, Event.checkName] ∧
    ¬ ((create.Cluster envSuccess ctxBadName optsBothFlagsFalse).2.indexOf Event.checkName
        < (create.Cluster envSuccess ctxBadName optsBothFlagsFalse).2.indexOf Event.loadConfig) := by
  constructor
  · rfl
  · decide

/-- C1 (amended): for every creation call, options normalization runs
before cluster-name validation: whenever normalization succeeds, all of its
side effects (default-config load, node-image override, default-value
computation) occur strictly before the name check, and the name-check event
immediately follows them in the trace. -/
theorem c1_normalization_before_validation (env : Env) (ctx : Ctx)
    (opts0 opts : ClusterOptions) (cfg : config.Cluster) (evs0 : List Event)
    (hfix : fixupOptions env opts0 = (Except.ok (opts, cfg), evs0)) :
    Event.setDefaults ∈ evs0 ∧ Event.checkName ∉ evs0 ∧
    ∃ rest, (create.Cluster env ctx opts0).2 = evs0 ++ Event.checkName :: rest := by
  have hsnd : (fixupOptions env opts0).2 = evs0 := by rw [hfix]
  refine ⟨?_, ?_, ?_⟩
  · have := fixupOptions_ok_events env opts0 (opts, cfg) evs0 hfix
    rw [this]
    simp
  · intro hmem
    rcases fixup_event_cases env opts0 Event.checkName (hsnd ▸ hmem) with h | h | h <;>
      simp at h
  · unfold create.Cluster
    rw [hfix]
    by_cases hn : validNameMatch ctx.name
    · exact ⟨(create.clusterAfterName env ctx opts cfg).2, by simp [hn]⟩
    · exact ⟨[], by simp [hn]⟩

/-- Witness for the amended C1 at a concrete input: no config present, an
invalid name, all collaborators succeeding. -/
theorem c1_amended_witness :
    Event.setDefaults ∈ [Event.loadConfig, Event.setDefaults] ∧
    Event.checkName ∉ [Event.loadConfig, Event.setDefaults] ∧
    ∃ rest, (create.Cluster envSuccess ctxBadName optsBothFlagsFalse).2
        = [Event.loadConfig, Event.setDefaults] ++ Event.checkName :: rest :=
  c1_normalization_before_validation envSuccess ctxBadName optsBothFlagsFalse
    { optsBothFlagsFalse with config := some cfgCNIEnabled } cfgCNIEnabled
    [Event.loadConfig, Event.setDefaults] (by rfl)

/-! ### C3: pipeline contents -/

/-- The PipelineAssembler algorithm exactly as written in spec section 4.4,
as a function of the two flags and the wait duration:
steps = [load-balancer, config-generation]; if not stopBeforeBootstrap,
append control-plane-init, then CNI-install unless disableDefaultCNI, then
storage-install, node-join and readiness-wait(waitDuration). -/
def specPipelineSteps (stopBeforeBootstrap disableDefaultCNI : Bool)
    (waitDuration : Nat) : List StepKind :=
  let steps0 := [StepKind.loadbalancer, StepKind.configAction]
  if stopBeforeBootstrap then
    steps0
  else
    let steps1 := steps0 ++ [StepKind.kubeadminit]
    let steps2 := if disableDefaultCNI then steps1 else steps1 ++ [StepKind.installcni]
    steps2 ++ [StepKind.installstorage, StepKind.kubeadmjoin,
               StepKind.waitforready waitDuration]

/-- C3: for every ClusterOptions value, the assembled step sequence equals
exactly the output of the spec's algorithm on the stop flag, the
disable-CNI flag and the wait duration. -/
theorem c3_pipeline_matches_spec (opts : ClusterOptions) (cfg : config.Cluster) :
    assembleActions opts cfg =
      specPipelineSteps opts.stopBeforeSettingUpKubernetes
        cfg.networking.disableDefaultCNI opts.waitForReady := by
  cases hs : opts.stopBeforeSettingUpKubernetes <;>
    cases h : cfg.networking.disableDefaultCNI <;>
      simp [assembleActions, specPipelineSteps, hs, h]

theorem fixup_filter_runStep (env : Env) (opts : ClusterOptions) :
    (fixupOptions env opts).2.filter isRunStep = [] := by
  rw [List.filter_eq_nil_iff]
  intro e he
  rcases fixup_event_cases env opts e he with h | h | h <;> subst h <;> decide

theorem filter_runStep_map (l : List StepKind) :
    (l.map Event.runStep).filter isRunStep = l.map Event.runStep := by
  induction l with
  | nil => rfl
  | cons s rest ih => simp [isRunStep, ih]

theorem count_map_runStep (l : List StepKind) (e : Event) (h : isRunStep e = false) :
    (l.map Event.runStep).count e = 0 := by
  rw [List.count_eq_zero]
  intro hmem
  rcases List.mem_map.mp hmem with ⟨s, _, rfl⟩
  simp [isRunStep] at h

theorem filter_opt_single (c : Prop) [inst : Decidable c] (a : Event) (p : Event → Bool)
    (h : p a = false) :
    List.filter p (if c then [a] else []) = [] := by
  split <;> simp [h]

theorem count_take_map_runStep (l : List StepKind) (m : Nat) (e : Event)
    (h : isRunStep e = false) :
    (List.take m (l.map Event.runStep)).count e = 0 := by
  rw [List.count_eq_zero]
  intro hmem
  rcases List.mem_map.mp (List.take_subset m _ hmem) with ⟨s, _, rfl⟩
  simp [isRunStep] at h

theorem mem_take_map_runStep (l : List StepKind) (m : Nat) :
    ∀ a ∈ List.take m (l.map Event.runStep), isRunStep a = true := by
  intro a ha
  rcases List.mem_map.mp (List.take_subset m _ ha) with ⟨s, _, rfl⟩
  rfl

/-! ### C4: provisioning failure and compensation -/

/-- C4: if provisioning fails, the call returns the provisioning error
unchanged (for any outcome of the discarded deletion); compensation is
invoked exactly once when retain is false and never when retain is true. -/
theorem c4_provision_failure (env : Env) (ctx : Ctx) (opts0 opts : ClusterOptions)
    (cfg : config.Cluster) (evs0 : List Event) (e : String)
    (hfix : fixupOptions env opts0 = (Except.ok (opts, cfg), evs0))
    (hn : validNameMatch ctx.name = true)
    (hv : env.validateResult = none)
    (hp : env.provisionResult = some e) :
    (create.Cluster env ctx opts0).1 = some e ∧
    (create.Cluster env ctx opts0).2.count Event.compensate
      = (if opts.retain then 0 else 1) := by
  have hc0 : evs0.count Event.compensate = 0 := by
    have h := fixup_count_zero env opts0 Event.compensate (by decide) (by decide) (by decide)
    rw [hfix] at h
    exact h
  have hw : List.count Event.compensate
      (if ctx.name.length > clusterNameMax then [Event.warnLongName] else []) = 0 :=
    count_opt_single _ _ _ (by decide)
  unfold create.Cluster create.clusterAfterName
  rw [hfix]
  cases hr : opts.retain <;>
    simp [hn, hv, hp, hr, List.count_append, List.count_cons, hc0, hw]

/-- Environment in which provisioning fails and everything else succeeds. -/
def envProvisionFail : Env :=
  { envSuccess with provisionResult := some "provision failed" }

/-- A context with a valid cluster name. -/
def ctxGoodName : Ctx := { name := "kind" }

/-- Options carrying an explicit (empty) specification and both flags false. -/
def optsWithConfig : ClusterOptions :=
  { optsBothFlagsFalse with config := some cfgCNIEnabled }

/-- Witness for C4 at a concrete input: provisioning fails, retain is
false, so compensation runs exactly once and the provisioning error is
returned. -/
theorem c4_witness :
    (create.Cluster envProvisionFail ctxGoodName optsWithConfig).1
        = some "provision failed" ∧
    (create.Cluster envProvisionFail ctxGoodName optsWithConfig).2.count
        Event.compensate = 1 := by
  have h := c4_provision_failure envProvisionFail ctxGoodName optsWithConfig
    optsWithConfig cfgCNIEnabled [Event.setDefaults] "provision failed"
    (by rfl) (by decide) rfl rfl
  simpa [optsWithConfig, optsBothFlagsFalse] using h

/-! ### C5: first step failure stops the pipeline -/

/-- C5: if step k (0-based) of the assembled pipeline is the first to fail,
the executed actions are exactly steps 0..k (steps k+1..N never execute),
the call returns the failing step's error unchanged, and compensation runs
exactly once unless retain is set. -/
theorem c5_step_failure (env : Env) (ctx : Ctx) (opts0 opts : ClusterOptions)
    (cfg : config.Cluster) (evs0 : List Event) (k : Nat) (e : String)
    (hfix : fixupOptions env opts0 = (Except.ok (opts, cfg), evs0))
    (hn : validNameMatch ctx.name = true)
    (hv : env.validateResult = none)
    (hp : env.provisionResult = none)
    (hk : k < (assembleActions opts cfg).length)
    (hpre : ∀ j, j < k → env.stepResults j = none)
    (hfail : env.stepResults k = some e) :
    (create.Cluster env ctx opts0).1 = some e ∧
    (create.Cluster env ctx opts0).2.filter isRunStep
      = ((assembleActions opts cfg).take (k + 1)).map Event.runStep ∧
    (create.Cluster env ctx opts0).2.count Event.compensate
      = (if opts.retain then 0 else 1) := by
  have hrun := runActionsFrom_fail env (assembleActions opts cfg) 0 k e hk
    (fun j hj => by simpa using hpre j hj) (by simpa using hfail)
  have hf0 : evs0.filter isRunStep = [] := by
    have h := fixup_filter_runStep env opts0
    rw [hfix] at h
    exact h
  have hc0 : evs0.count Event.compensate = 0 := by
    have h := fixup_count_zero env opts0 Event.compensate (by decide) (by decide) (by decide)
    rw [hfix] at h
    exact h
  have hwc : List.count Event.compensate
      (if ctx.name.length > clusterNameMax then [Event.warnLongName] else []) = 0 :=
    count_opt_single _ _ _ (by decide)
  have hwf : List.filter isRunStep
      (if ctx.name.length > clusterNameMax then [Event.warnLongName] else []) = [] :=
    filter_opt_single _ _ _ (by decide)
  unfold create.Cluster create.clusterAfterName
  rw [hfix]
  cases hr : opts.retain <;>
    simp [hn, hv, hp, hr, hrun, List.count_append, List.count_cons,
      List.filter_append, hc0, hf0, hwc, hwf, isRunStep] <;>
    exact ⟨mem_take_map_runStep _ _, count_take_map_runStep _ _ _ (by decide)⟩

/-- Environment in which the third pipeline action (index 2, kubeadm init)
fails and everything else succeeds. -/
def envStepFail : Env :=
  { envSuccess with stepResults := fun j => if j = 2 then some "step failed" else none }

/-- Witness for C5 at a concrete input: step index 2 of the 7-step pipeline
fails, only the first three actions run, compensation runs exactly once,
and the step error is returned. -/
theorem c5_witness :
    (create.Cluster envStepFail ctxGoodName optsWithConfig).1 = some "step failed" ∧
    (create.Cluster envStepFail ctxGoodName optsWithConfig).2.filter isRunStep
      = [Event.runStep StepKind.loadbalancer, Event.runStep StepKind.configAction,
         Event.runStep StepKind.kubeadminit] ∧
    (create.Cluster envStepFail ctxGoodName optsWithConfig).2.count
        Event.compensate = 1 := by
  have h := c5_step_failure envStepFail ctxGoodName optsWithConfig optsWithConfig
    cfgCNIEnabled [Event.setDefaults] 2 "step failed"
    (by rfl) (by decide) rfl rfl (by decide) (by decide) rfl
  simpa [optsWithConfig, optsBothFlagsFalse, cfgCNIEnabled, assembleActions] using h

/-- Shape of a call in which normalization, the name check, config
validation, provisioning and every pipeline action succeed: the result and
the tail of the trace are those of the completion handling
`clusterAfterPipeline`. -/
theorem cluster_success_shape (env : Env) (ctx : Ctx) (opts0 opts : ClusterOptions)
    (cfg : config.Cluster) (evs0 : List Event)
    (hfix : fixupOptions env opts0 = (Except.ok (opts, cfg), evs0))
    (hn : validNameMatch ctx.name = true)
    (hv : env.validateResult = none)
    (hp : env.provisionResult = none)
    (hsteps : ∀ j, env.stepResults j = none) :
    create.Cluster env ctx opts0
      = ((create.clusterAfterPipeline env opts).1,
         evs0 ++ Event.checkName ::
           ((if ctx.name.length > clusterNameMax then [Event.warnLongName] else [])
             ++ Event.validateConfig :: Event.provision ::
               ((assembleActions opts cfg).map Event.runStep
                 ++ (create.clusterAfterPipeline env opts).2))) := by
  have hrun := runActionsFrom_success env (assembleActions opts cfg) 0
    (fun j _ => by simpa using hsteps j)
  unfold create.Cluster create.clusterAfterName
  rw [hfix]
  simp [hn, hv, hp, hrun]

/-! ### C6: completion on full pipeline success -/

/-- C6: on a fully successful pipeline run, if stopBeforeBootstrap is true
the call returns success immediately and credential export, usage output
and salutation output never happen; if stopBeforeBootstrap is false,
credential export is attempted exactly once. -/
theorem c6_success_completion (env : Env) (ctx : Ctx) (opts0 opts : ClusterOptions)
    (cfg : config.Cluster) (evs0 : List Event)
    (hfix : fixupOptions env opts0 = (Except.ok (opts, cfg), evs0))
    (hn : validNameMatch ctx.name = true)
    (hv : env.validateResult = none)
    (hp : env.provisionResult = none)
    (hsteps : ∀ j, env.stepResults j = none) :
    (opts.stopBeforeSettingUpKubernetes = true →
       (create.Cluster env ctx opts0).1 = none ∧
       (create.Cluster env ctx opts0).2.count Event.exportKubeconfig = 0 ∧
       (create.Cluster env ctx opts0).2.count Event.displayUsage = 0 ∧
       (create.Cluster env ctx opts0).2.count Event.displaySalutation = 0) ∧
    (opts.stopBeforeSettingUpKubernetes = false →
       (create.Cluster env ctx opts0).2.count Event.exportKubeconfig = 1) := by
  have hsh := cluster_success_shape env ctx opts0 opts cfg evs0 hfix hn hv hp hsteps
  have he0 : evs0.count Event.exportKubeconfig = 0 := by
    have h := fixup_count_zero env opts0 Event.exportKubeconfig
      (by decide) (by decide) (by decide)
    rw [hfix] at h; exact h
  have hu0 : evs0.count Event.displayUsage = 0 := by
    have h := fixup_count_zero env opts0 Event.displayUsage
      (by decide) (by decide) (by decide)
    rw [hfix] at h; exact h
  have hs0 : evs0.count Event.displaySalutation = 0 := by
    have h := fixup_count_zero env opts0 Event.displaySalutation
      (by decide) (by decide) (by decide)
    rw [hfix] at h; exact h
  have hwe : List.count Event.exportKubeconfig
      (if ctx.name.length > clusterNameMax then [Event.warnLongName] else []) = 0 :=
    count_opt_single _ _ _ (by decide)
  have hwu : List.count Event.displayUsage
      (if ctx.name.length > clusterNameMax then [Event.warnLongName] else []) = 0 :=
    count_opt_single _ _ _ (by decide)
  have hws : List.count Event.displaySalutation
      (if ctx.name.length > clusterNameMax then [Event.warnLongName] else []) = 0 :=
    count_opt_single _ _ _ (by decide)
  have hme : ((assembleActions opts cfg).map Event.runStep).count
      Event.exportKubeconfig = 0 := count_map_runStep _ _ (by decide)
  have hmu : ((assembleActions opts cfg).map Event.runStep).count
      Event.displayUsage = 0 := count_map_runStep _ _ (by decide)
  have hms : ((assembleActions opts cfg).map Event.runStep).count
      Event.displaySalutation = 0 := count_map_runStep _ _ (by decide)
  constructor
  · intro hstop
    rw [hsh]
    simp [create.clusterAfterPipeline, hstop, List.count_append, List.count_cons,
      he0, hu0, hs0, hwe, hwu, hws, hme, hmu, hms]
  · intro hstop
    rw [hsh]
    cases hx : env.exportResult with
    | some e =>
      simp [create.clusterAfterPipeline, hstop, hx, List.count_append,
        List.count_cons, he0, hwe, hme]
    | none =>
      cases hu : opts.displayUsage <;> cases hsal : opts.displaySalutation <;>
        simp [create.clusterAfterPipeline, hstop, hx, hu, hsal,
          List.count_append, List.count_cons, he0, hwe, hme]

/-- Options stopping before kubernetes setup, with an explicit config. -/
def optsStopInfraOnly : ClusterOptions :=
  { optsWithConfig with stopBeforeSettingUpKubernetes := true }

/-- Witness for C6 at concrete inputs: with all collaborators succeeding,
the stop-flag run exports nothing and displays nothing, and the full run
exports exactly once. -/
theorem c6_witness :
    ((create.Cluster envSuccess ctxGoodName optsStopInfraOnly).1 = none ∧
     (create.Cluster envSuccess ctxGoodName optsStopInfraOnly).2.count
        Event.exportKubeconfig = 0 ∧
     (create.Cluster envSuccess ctxGoodName optsStopInfraOnly).2.count
        Event.displayUsage = 0 ∧
     (create.Cluster envSuccess ctxGoodName optsStopInfraOnly).2.count
        Event.displaySalutation = 0) ∧
    (create.Cluster envSuccess ctxGoodName optsWithConfig).2.count
        Event.exportKubeconfig = 1 := by
  have h1 := c6_success_completion envSuccess ctxGoodName optsStopInfraOnly
    optsStopInfraOnly cfgCNIEnabled [Event.setDefaults]
    (by rfl) (by decide) rfl rfl (fun _ => rfl)
  have h2 := c6_success_completion envSuccess ctxGoodName optsWithConfig
    optsWithConfig cfgCNIEnabled [Event.setDefaults]
    (by rfl) (by decide) rfl rfl (fun _ => rfl)
  exact ⟨h1.1 rfl, h2.2 rfl⟩

/-! ### C7: export failure triggers no compensation -/

/-- C7: if credential export fails after a fully successful pipeline, the
export error is returned to the caller and compensation is never invoked. -/
theorem c7_export_failure_no_compensation (env : Env) (ctx : Ctx)
    (opts0 opts : ClusterOptions) (cfg : config.Cluster) (evs0 : List Event)
    (e : String)
    (hfix : fixupOptions env opts0 = (Except.ok (opts, cfg), evs0))
    (hn : validNameMatch ctx.name = true)
    (hv : env.validateResult = none)
    (hp : env.provisionResult = none)
    (hsteps : ∀ j, env.stepResults j = none)
    (hstop : opts.stopBeforeSettingUpKubernetes = false)
    (hx : env.exportResult = some e) :
    (create.Cluster env ctx opts0).1 = some e ∧
    (create.Cluster env ctx opts0).2.count Event.compensate = 0 := by
  have hsh := cluster_success_shape env ctx opts0 opts cfg evs0 hfix hn hv hp hsteps
  have hc0 : evs0.count Event.compensate = 0 := by
    have h := fixup_count_zero env opts0 Event.compensate
      (by decide) (by decide) (by decide)
    rw [hfix] at h; exact h
  have hwc : List.count Event.compensate
      (if ctx.name.length > clusterNameMax then [Event.warnLongName] else []) = 0 :=
    count_opt_single _ _ _ (by decide)
  have hmc : ((assembleActions opts cfg).map Event.runStep).count
      Event.compensate = 0 := count_map_runStep _ _ (by decide)
  rw [hsh]
  simp [create.clusterAfterPipeline, hstop, hx, List.count_append,
    List.count_cons, hc0, hwc, hmc]

/-- Environment in which only the kubeconfig export fails. -/
def envExportFail : Env :=
  { envSuccess with exportResult := some "export failed" }

/-- Witness for C7 at a concrete input: the pipeline succeeds, the export
fails, the export error is returned and no compensation happens. -/
theorem c7_witness :
    (create.Cluster envExportFail ctxGoodName optsWithConfig).1
        = some "export failed" ∧
    (create.Cluster envExportFail ctxGoodName optsWithConfig).2.count
        Event.compensate = 0 :=
  c7_export_failure_no_compensation envExportFail ctxGoodName optsWithConfig
    optsWithConfig cfgCNIEnabled [Event.setDefaults] "export failed"
    (by rfl) (by decide) rfl rfl (fun _ => rfl) rfl rfl

/-! ### C8: name validation -/

/-- The name format rule exactly as the spec words it: a character of the
class `[A-Za-z0-9_.-]`. -/
def specNameChar (c : Char) : Bool :=
  ('A' ≤ c && c ≤ 'Z') || ('a' ≤ c && c ≤ 'z') || ('0' ≤ c && c ≤ '9')
    || c == '_' || c == '.' || c == '-'

/-- The spec's rule: the whole name fully matches `^[A-Za-z0-9_.-]+$`. -/
def specValidName (s : String) : Bool :=
  !s.isEmpty && s.toList.all specNameChar

theorem validateConfig_mem_afterName (env : Env) (ctx : Ctx)
    (opts : ClusterOptions) (cfg : config.Cluster) :
    Event.validateConfig ∈ (create.clusterAfterName env ctx opts cfg).2 := by
  unfold create.clusterAfterName
  cases hv : env.validateResult with
  | some e => simp
  | none =>
    cases hp : env.provisionResult with
    | some e => cases hr : opts.retain <;> simp [hr]
    | none =>
      cases hres : (runActionsFrom env 0 (assembleActions opts cfg)).1 with
      | some e => cases hr : opts.retain <;> simp [hr, hres]
      | none => simp [hres]

/-- C8: validation of the cluster name agrees pointwise with the spec's
rule `^[A-Za-z0-9_.-]+$` (and rejects "my cluster!", "" and "a/b"); on a
mismatch the call fails with the invalid-name error and neither
provisioning nor compensation ever happens; on a match execution moves past
the name check into config validation. -/
theorem c8_name_validation (env : Env) (ctx : Ctx) (opts0 opts : ClusterOptions)
    (cfg : config.Cluster) (evs0 : List Event)
    (hfix : fixupOptions env opts0 = (Except.ok (opts, cfg), evs0)) :
    validNameMatch ctx.name = specValidName ctx.name ∧
    validNameMatch "my cluster!" = false ∧
    validNameMatch "" = false ∧
    validNameMatch "a/b" = false ∧
    (validNameMatch ctx.name = false →
       (create.Cluster env ctx opts0).1 = some (invalidNameError ctx.name) ∧
       Event.provision ∉ (create.Cluster env ctx opts0).2 ∧
       Event.compensate ∉ (create.Cluster env ctx opts0).2) ∧
    (validNameMatch ctx.name = true →
       Event.validateConfig ∈ (create.Cluster env ctx opts0).2) := by
  have hchar : ∀ c, isValidNameChar c = specNameChar c := by
    intro c
    unfold isValidNameChar specNameChar
    cases h1 : ('a' ≤ c && c ≤ 'z') <;> cases h2 : ('A' ≤ c && c ≤ 'Z') <;>
      simp [h1, h2]
  have hnp : Event.provision ∉ evs0 := by
    intro hm
    rcases fixup_event_cases env opts0 _ (by rw [hfix]; exact hm) with h | h | h <;>
      simp at h
  have hnc : Event.compensate ∉ evs0 := by
    intro hm
    rcases fixup_event_cases env opts0 _ (by rw [hfix]; exact hm) with h | h | h <;>
      simp at h
  refine ⟨?_, by decide, by decide, by decide, ?_, ?_⟩
  · unfold validNameMatch specValidName
    rw [show isValidNameChar = specNameChar from funext hchar]
  · intro hinv
    have hcl : create.Cluster env ctx opts0
        = (some (invalidNameError ctx.name), evs0 ++ [Event.checkName]) := by
      unfold create.Cluster
      rw [hfix]
      simp [hinv]
    rw [hcl]
    refine ⟨rfl, ?_, ?_⟩ <;> intro hm <;> rcases List.mem_append.mp hm with h | h
    · exact hnp h
    · simp at h
    · exact hnc h
    · simp at h
  · intro hval
    unfold create.Cluster
    rw [hfix]
    simp only [hval, Bool.not_true, if_false]
    simp [validateConfig_mem_afterName]

/-- A context whose cluster name contains a slash. -/
def ctxSlashName : Ctx := { name := "a/b" }

/-- Witness for C8 at a concrete input: the name "a/b" is rejected exactly
as the spec's rule rejects it, the invalid-name error is returned, and no
compensation happens. -/
theorem c8_witness :
    validNameMatch "a/b" = specValidName "a/b" ∧
    (create.Cluster envSuccess ctxSlashName optsWithConfig).1
        = some (invalidNameError "a/b") ∧
    Event.compensate ∉ (create.Cluster envSuccess ctxSlashName optsWithConfig).2 := by
  have h := c8_name_validation envSuccess ctxSlashName optsWithConfig optsWithConfig
    cfgCNIEnabled [Event.setDefaults] (by rfl)
  have h2 := h.2.2.2.2.1 (by decide)
  exact ⟨h.1, h2.1, h2.2.2⟩

/-! ### C9: node-image override reaches every node -/

theorem override_then_defaults_image (d img : String) (himg : img ≠ "")
    (c : config.Cluster) :
    ∀ n ∈ (SetDefaultsCluster d (applyNodeImageOverride img c)).nodes,
      n.image = img := by
  intro n hn
  simp only [SetDefaultsCluster, applyNodeImageOverride, List.map_map] at hn
  rcases List.mem_map.mp hn with ⟨m, hm, rfl⟩
  simp [Function.comp, himg]

/-- C9: whenever normalization succeeds and the node-image override is
non-empty, every node entry of the normalized specification carries the
override as its image. -/
theorem c9_node_image_override (env : Env) (opts : ClusterOptions)
    (r : ClusterOptions × config.Cluster) (evs : List Event)
    (hfix : fixupOptions env opts = (Except.ok r, evs))
    (himg : opts.nodeImage ≠ "") :
    ∀ n ∈ r.2.nodes, n.image = opts.nodeImage := by
  have hpost : ∀ (o : ClusterOptions) (cfg0 : config.Cluster) (evs1 : List Event),
      fixupOptionsPost env o cfg0 evs1 = (Except.ok r, evs) →
      o.nodeImage = opts.nodeImage →
      ∀ n ∈ r.2.nodes, n.image = opts.nodeImage := by
    intro o cfg0 evs1 hpq ho n hn
    unfold fixupOptionsPost at hpq
    simp only [Prod.mk.injEq, Except.ok.injEq] at hpq
    obtain ⟨h1, _⟩ := hpq
    rw [← h1] at hn
    simp only at hn
    rw [ho, if_pos himg] at hn
    exact override_then_defaults_image _ _ himg _ n hn
  unfold fixupOptions at hfix
  cases hc : opts.config with
  | none =>
    rw [hc] at hfix
    cases hl : env.loadResult with
    | error e => rw [hl] at hfix; simp at hfix
    | ok cfg0 =>
      rw [hl] at hfix
      exact hpost _ _ _ hfix rfl
  | some cfg0 =>
    rw [hc] at hfix
    exact hpost _ _ _ hfix rfl

/-- A three-node specification with distinct images. -/
def cfgThreeNodes : config.Cluster :=
  { nodes := [{ image := "a" }, { image := "" }, { image := "c" }],
    networking := { disableDefaultCNI := false } }

/-- Options carrying the three-node specification and the override
"custom:tag". -/
def optsCustomTag : ClusterOptions :=
  { optsBothFlagsFalse with config := some cfgThreeNodes, nodeImage := "custom:tag" }

/-- Witness for C9 at a concrete input: a 3-node specification and override
"custom:tag"; after normalization every node's image equals "custom:tag". -/
theorem c9_witness :
    (SetDefaultsCluster "kindest/node:latest"
        (applyNodeImageOverride "custom:tag" cfgThreeNodes)).nodes.all
      (fun n => n.image == "custom:tag") = true := by
  have h := c9_node_image_override envSuccess optsCustomTag
    ({ optsCustomTag with
        config := some (SetDefaultsCluster "kindest/node:latest"
          (applyNodeImageOverride "custom:tag" cfgThreeNodes)) },
     SetDefaultsCluster "kindest/node:latest"
       (applyNodeImageOverride "custom:tag" cfgThreeNodes))
    [Event.overrideImages, Event.setDefaults] (by rfl) (by decide)
  rw [List.all_eq_true]
  intro n hn
  simpa using h n hn

/-! ### C10: empty override leaves everything else alone -/

/-- C10: when the node-image override is empty, normalization emits no
override effect, the normalized specification is exactly the default-value
computation applied to the incoming (or freshly loaded) specification, and
every other options field is left unchanged. -/
theorem c10_empty_override_frame (env : Env) (opts : ClusterOptions)
    (r : ClusterOptions × config.Cluster) (evs : List Event)
    (hfix : fixupOptions env opts = (Except.ok r, evs))
    (himg : opts.nodeImage = "") :
    Event.overrideImages ∉ evs ∧
    (∃ cfg0, (opts.config = some cfg0
        ∨ (opts.config = none ∧ env.loadResult = Except.ok cfg0))
      ∧ r.2 = SetDefaultsCluster env.defaultNodeImage cfg0) ∧
    r.1.nodeImage = opts.nodeImage ∧
    r.1.retain = opts.retain ∧
    r.1.waitForReady = opts.waitForReady ∧
    r.1.kubeconfigPath = opts.kubeconfigPath ∧
    r.1.stopBeforeSettingUpKubernetes = opts.stopBeforeSettingUpKubernetes ∧
    r.1.displayUsage = opts.displayUsage ∧
    r.1.displaySalutation = opts.displaySalutation := by
  have hmem : Event.overrideImages ∉ evs := by
    have hev := fixupOptions_ok_events env opts r evs hfix
    rw [hev]
    intro hm
    rcases List.mem_append.mp hm with h | h
    · rcases List.mem_append.mp h with h' | h'
      · revert h'; split <;> simp
      · rw [himg] at h'
        simp at h'
    · simp at h
  refine ⟨hmem, ?_⟩
  unfold fixupOptions at hfix
  cases hc : opts.config with
  | none =>
    rw [hc] at hfix
    cases hl : env.loadResult with
    | error e => rw [hl] at hfix; simp at hfix
    | ok cfg0 =>
      rw [hl] at hfix
      unfold fixupOptionsPost at hfix
      simp only [himg, ne_eq, not_true_eq_false, if_false, Prod.mk.injEq,
        Except.ok.injEq] at hfix
      obtain ⟨h1, _⟩ := hfix
      rw [← h1]
      exact ⟨⟨cfg0, Or.inr ⟨rfl, rfl⟩, rfl⟩, himg.symm, rfl, rfl, rfl, rfl, rfl, rfl⟩
  | some cfg0 =>
    rw [hc] at hfix
    unfold fixupOptionsPost at hfix
    simp only [himg, ne_eq, not_true_eq_false, if_false, Prod.mk.injEq,
      Except.ok.injEq] at hfix
    obtain ⟨h1, _⟩ := hfix
    rw [← h1]
    exact ⟨⟨cfg0, Or.inl rfl, rfl⟩, himg.symm, rfl, rfl, rfl, rfl, rfl, rfl⟩

/-- Options carrying the three-node specification and no image override. -/
def optsNoOverride : ClusterOptions :=
  { optsBothFlagsFalse with config := some cfgThreeNodes }

/-- Witness for C10 at a concrete input: with an empty override, the
three-node specification is only touched by default-value computation and
all other options fields survive normalization unchanged. -/
theorem c10_witness :
    Event.overrideImages ∉ [Event.setDefaults] ∧
    (∃ cfg0, (optsNoOverride.config = some cfg0
        ∨ (optsNoOverride.config = none
            ∧ envSuccess.loadResult = Except.ok cfg0))
      ∧ (SetDefaultsCluster "kindest/node:latest" cfgThreeNodes)
          = SetDefaultsCluster envSuccess.defaultNodeImage cfg0) ∧
    optsNoOverride.nodeImage = optsNoOverride.nodeImage ∧
    optsNoOverride.retain = optsNoOverride.retain ∧
    optsNoOverride.waitForReady = optsNoOverride.waitForReady ∧
    optsNoOverride.kubeconfigPath = optsNoOverride.kubeconfigPath ∧
    optsNoOverride.stopBeforeSettingUpKubernetes
        = optsNoOverride.stopBeforeSettingUpKubernetes ∧
    optsNoOverride.displayUsage = optsNoOverride.displayUsage ∧
    optsNoOverride.displaySalutation = optsNoOverride.displaySalutation :=
  c10_empty_override_frame envSuccess optsNoOverride
    ({ optsNoOverride with
        config := some (SetDefaultsCluster "kindest/node:latest" cfgThreeNodes) },
     SetDefaultsCluster "kindest/node:latest" cfgThreeNodes)
    [Event.setDefaults] (by rfl) rfl

end Kind
